import Mathlib

/-!
Shallow embedding of the orchestration core of the `services` voice-agent
repository (`src/voice-agent/src/index.js`, `src/voice-agent/src/twilio.js`,
and the unnamed OpenAI/storage/config modules), together with theorems
settling the frozen claims about it.

Conventions of the embedding:
* Form-encoded webhook bodies and header maps are association lists
  `List (String × String)`; a key absent from the list models a field that is
  `undefined` in JavaScript, while a present key with value `""` models a
  present-but-empty field (`String(body[k]) = ''`).
* JavaScript truthiness on strings (`''` is falsy) is modelled by `truthy`.
* `Date.now()` timestamps are `Nat` milliseconds.  JavaScript computes
  `now - prev.ts` as a possibly negative number and compares `< 5000`; with
  `Nat` truncated subtraction a clock that did not advance gives `0 < 5000`,
  the same suppression outcome, so `Nat` is extensionally faithful here.
* Byte buffers are `List Nat` with entries below 256.  Node's
  `buffer.toString('ascii')` unsets the high bit of every byte before
  decoding, which `asciiDecode` reproduces.
* `JSON.parse` and `crypto.createHmac(...).digest('base64')` are external
  runtime primitives; functions that call them are parameterised by an
  arbitrary function standing for the primitive.
-/

namespace VoiceAgent

/-- List-level check that `needle` is an initial segment of `hay`
(helper for the substring test used by `String.prototype.includes`). -/
def isPre : List Char → List Char → Bool
  | [], _ => true
  | _ :: _, [] => false
  | a :: as, b :: bs => a == b && isPre as bs

/-- List-level substring occurrence test. -/
def hasSubChars (needle : List Char) : List Char → Bool
  | [] => isPre needle []
  | c :: cs => isPre needle (c :: cs) || hasSubChars needle cs

/-- JavaScript `hay.includes(needle)` on strings. -/
def hasSub (needle hay : String) : Bool :=
  hasSubChars needle.data hay.data

/-- Lowercasing of a single character, as JS `toLowerCase` acts on the
ASCII range (the only case distinctions the handlers compare against). -/
def lowerChar (c : Char) : Char :=
  if 65 ≤ c.toNat && c.toNat ≤ 90 then Char.ofNat (c.toNat + 32) else c

/-- JavaScript `s.toLowerCase()` (ASCII range). -/
def strLower (s : String) : String :=
  String.mk (s.data.map lowerChar)

/-- ASCII whitespace test for the characters removed by JS `trim`. -/
def isWsChar (c : Char) : Bool :=
  c.toNat = 32 || c.toNat = 9 || c.toNat = 10 ||
  c.toNat = 11 || c.toNat = 12 || c.toNat = 13

/-- JavaScript `s.trim()` (ASCII whitespace). -/
def jsTrim (s : String) : String :=
  String.mk (((s.data.dropWhile isWsChar).reverse.dropWhile isWsChar).reverse)

/-- Code-point lexicographic comparison of character lists, the order used
by JavaScript's default `Array.prototype.sort` on strings. -/
def charListLe : List Char → List Char → Bool
  | [], _ => true
  | _ :: _, [] => false
  | a :: as, b :: bs =>
    if a.toNat < b.toNat then true
    else if b.toNat < a.toNat then false
    else charListLe as bs

/-- Lexicographic comparison of strings by code points. -/
def strLe (s t : String) : Bool :=
  charListLe s.data t.data

/-- Lookup of a key in an association list modelling a JS object
(`body[k]`, `none` = the field is absent / `undefined`). -/
def getField (assoc : List (String × String)) (k : String) : Option String :=
  (assoc.find? (fun p => p.1 == k)).map (fun p => p.2)

/-- JavaScript truthiness of a possibly-absent string value:
`undefined` and `''` are falsy, every other string is truthy. -/
def truthy (o : Option String) : Bool :=
  match o with
  | none => false
  | some s => s ≠ ""

/-- JavaScript `a || b` on possibly-absent string values. -/
def jsOr (a b : Option String) : Option String :=
  if truthy a then a else b

/-- The `pick(body, ...keys)` helper of `index.js`: first key whose value is
not `null`/`undefined`, stringified; `''` when none is found. -/
def pick (body : List (String × String)) : List String → String
  | [] => ""
  | k :: ks =>
    match getField body k with
    | some v => v
    | none => pick body ks

/-- Concatenation of a list of strings (JS `array.join('')`). -/
def strJoin : List String → String
  | [] => ""
  | s :: ss => s ++ strJoin ss

/-- Insertion of a string into a lexicographically sorted list
(helper for `Object.keys(body).sort()`). -/
def insOne (s : String) : List String → List String
  | [] => [s]
  | t :: ts => if strLe s t then s :: t :: ts else t :: insOne s ts

/-- Lexicographic insertion sort of a list of strings, modelling
JavaScript's default `Array.prototype.sort` on the key set. -/
def insSort : List String → List String
  | [] => []
  | s :: ss => insOne s (insSort ss)

/-! ### `src/voice-agent/src/twilio.js` -/

/-- The canonical string signed by `validateTwilioSignature`:
`url` concatenated with every form-body key in sorted order, each key
immediately followed by its value. -/
def canonicalString (url : String) (body : List (String × String)) : String :=
  url ++ strJoin ((insSort (body.map (fun p => p.1))).map
    (fun k => k ++ (getField body k).getD ""))

/-- Embedding of `validateTwilioSignature` from `twilio.js`.  `hmac` stands
for the runtime primitive `base64(HMAC-SHA1(authToken, ·))`; the final
`a.length === b.length && crypto.timingSafeEqual(a, b)` on the UTF-8 byte
buffers of the two strings is equivalent to string equality. -/
def validateTwilioSignature (hmac : String → String → String) (enabled : Bool)
    (authToken url : Option String) (headers body : List (String × String)) :
    Bool :=
  if !enabled then true
  else
    let sigHeader := jsOr (getField headers "x-twilio-signature")
      (getField headers "X-Twilio-Signature")
    if !truthy sigHeader || !truthy authToken || !truthy url then false
    else
      let computed := hmac (authToken.getD "") (canonicalString (url.getD "") body)
      computed == sigHeader.getD ""

/-- The TwiML document built by `redirectCallToPlay` in `twilio.js`
(after `.trim()`): play the audio URL, then redirect to `/twilio/voice`.
The `resumeUrl` argument passed by `index.js` is not a parameter of the
helper's destructuring pattern and never reaches the document. -/
def redirectTwiml (host audioUrl : String) : String :=
  "<Response>\n      <Play>" ++ audioUrl ++
  "</Play>\n      <Redirect method=\"POST\">https://" ++ host ++
  "/twilio/voice</Redirect>\n    </Response>"

/-! ### OpenAI TTS (`src/unnamed/part_000`, `synthesizeWavStrict`) -/

/-- The parts of the `fetch` response inspected by `synthesizeWavStrict`:
`ok` (2xx status), the lowercased-later content-type header (empty string
when the header is absent), and the response body bytes. -/
structure TtsResponse where
  ok : Bool
  contentType : String
  bytes : List Nat
deriving DecidableEq

/-- Node `buffer.toString('ascii')`: the high bit of every byte is unset
before decoding, so byte `b` decodes to the character `b % 128`. -/
def asciiDecode (bs : List Nat) : String :=
  String.mk (bs.map (fun b => Char.ofNat (b % 128)))

/-- The `looksLikeWav` test of `synthesizeWavStrict`: at least 12 bytes,
bytes 0–4 `'ascii'`-decode to `"RIFF"` and bytes 8–12 to `"WAVE"`. -/
def looksLikeWav (buf : List Nat) : Bool :=
  decide (buf.length ≥ 12) &&
  asciiDecode (buf.take 4) == "RIFF" &&
  asciiDecode ((buf.drop 8).take 4) == "WAVE"

/-- Embedding of `synthesizeWavStrict`: reject a non-ok status, then a
content type whose lowercasing does not contain `"audio"`, then a buffer
failing `looksLikeWav`; otherwise return the buffer. -/
def synthesizeWavStrict (r : TtsResponse) : Except String (List Nat) :=
  let ct := strLower r.contentType
  if !r.ok then .error "OpenAI TTS error"
  else if !hasSub "audio" ct then .error "OpenAI TTS returned non-audio"
  else if !looksLikeWav r.bytes then .error "Expected WAV bytes"
  else .ok r.bytes

/-- Projection of an `Except` result to `Option` (success payload). -/
def exceptOk : Except String (List Nat) → Option (List Nat)
  | .ok v => some v
  | .error _ => none

/-- Tag check in the spec's words (for comparison with `looksLikeWav`):
the first 4 bytes are exactly the ASCII code points of `"RIFF"` and bytes
8–12 exactly those of `"WAVE"`, with length at least 12. -/
def specWavTag (buf : List Nat) : Bool :=
  decide (buf.length ≥ 12) &&
  buf.take 4 == [82, 73, 70, 70] &&
  (buf.drop 8).take 4 == [87, 65, 86, 69]

/-! ### `src/voice-agent/src/index.js`: voice webhook and greeting state -/

/-- The `escapeXml` helper of `index.js` on a single character. -/
def escapeXmlChar (c : Char) : String :=
  if c = '<' then "&lt;"
  else if c = '>' then "&gt;"
  else if c = '&' then "&amp;"
  else if c = '"' then "&quot;"
  else if c = '\'' then "&apos;"
  else String.mk [c]

/-- The `escapeXml` helper of `index.js`. -/
def escapeXml (s : String) : String :=
  strJoin (s.data.map escapeXmlChar)

/-- Call-identifier extraction on `/twilio/voice`:
`(req.body?.CallSid || req.body?.callSid || '').toString()`. -/
def getCallSid (body : List (String × String)) : String :=
  (jsOr (getField body "CallSid") (getField body "callSid")).getD ""

/-- The greeting block of the `/twilio/voice` response.  `g` is the outcome
of `ensureGreetingWav` (`some url` on success, `none` when it threw and the
handler falls back to `<Say>` of the configured greeting `fallback`). -/
def greetingMarkup (g : Option String) (fallback : String) : String :=
  match g with
  | some url => "<Play>" ++ escapeXml url ++ "</Play>"
  | none => "<Say>" ++ escapeXml fallback ++ "</Say>"

/-- State transition of the `POST /twilio/voice` handler on the `greeted`
set (lines 145–173 of `index.js`), after signature validation.  Returns the
new greeted set and the greeting block interpolated into the TwiML (empty
when no greeting is played).  `shouldPlayGreeting = callSid && !greeted.has(callSid)`
is falsy in JS when `callSid` is the empty string. -/
def handleVoice (greeted : List String) (callSid : String) (g : Option String)
    (fallback : String) : List String × String :=
  let shouldPlayGreeting := !(callSid == "") && !(greeted.contains callSid)
  let greeted2 := if shouldPlayGreeting then callSid :: greeted else greeted
  let block := if shouldPlayGreeting then greetingMarkup g fallback else ""
  (greeted2, block)

/-- A sequence of call-start events ( `callSid`, greeting outcome, fallback
text) processed by `/twilio/voice`, threading the greeted set; returns the
final greeted set and the greeting block of every response in order. -/
def runVoiceSeq (greeted : List String) :
    List (String × Option String × String) → List String × List String
  | [] => (greeted, [])
  | (sid, g, fb) :: evs =>
    let r := handleVoice greeted sid g fb
    let rest := runVoiceSeq r.1 evs
    (rest.1, r.2 :: rest.2)

/-! ### `index.js`: transcript event classification -/

/-- Embedding of `isFinalEvent`: an explicit `Final`/`final` flag equal to
`"true"` after lowercasing, else an event-type containing `"stopped"`, else
a status equal to `"completed"` or `"final"`, else not final. -/
def isFinalEvent (body : List (String × String)) : Bool :=
  let finalFlag := strLower (pick body ["Final", "final"])
  if finalFlag == "true" then true
  else
    let evt := strLower (pick body ["TranscriptionEvent", "event", "EventType"])
    if hasSub "stopped" evt then true
    else
      let status := strLower (pick body ["TranscriptionStatus", "Status"])
      if status == "completed" || status == "final" then true
      else false

/-- JSON values, for the payload produced by the runtime `JSON.parse`
applied to the `TranscriptionData` string. -/
inductive Json where
  | null : Json
  | bool (b : Bool) : Json
  | num (n : Int) : Json
  | str (s : String) : Json
  | arr (elems : List Json) : Json
  | obj (fields : List (String × Json)) : Json

/-- JavaScript property access `j[k]` (`none` = `undefined`): only objects
have the property, looked up by exact key. -/
def jsonGet (j : Json) (k : String) : Option Json :=
  match j with
  | .obj fields => (fields.find? (fun p => p.1 == k)).map (fun p => p.2)
  | _ => none

/-- JavaScript truthiness of a JSON value. -/
def jsTruthy : Json → Bool
  | .null => false
  | .bool b => b
  | .num n => n ≠ 0
  | .str s => s ≠ ""
  | .arr _ => true
  | .obj _ => true

mutual

/-- JavaScript `toString()` of a JSON value (the cases reachable from
`(obj.transcript || obj.Transcript || '').toString()`). -/
def jsToStr : Json → String
  | .null => "null"
  | .bool b => if b then "true" else "false"
  | .num n => toString n
  | .str s => s
  | .arr elems => jsToStrList elems
  | .obj _ => "[object Object]"

/-- Comma-separated join of array elements, as JS `Array.prototype.toString`. -/
def jsToStrList : List Json → String
  | [] => ""
  | [j] => jsToStr j
  | j :: js => jsToStr j ++ "," ++ jsToStrList js

end

/-- JavaScript `(a || b || '')` where `a`, `b` are property accesses. -/
def firstTruthy (a b : Option Json) : Json :=
  match a with
  | some v =>
    if jsTruthy v then v
    else
      match b with
      | some w => if jsTruthy w then w else .str ""
      | none => .str ""
  | none =>
    match b with
    | some w => if jsTruthy w then w else .str ""
    | none => .str ""

/-- Embedding of `parseTranscriptionData`.  `jsonParse` stands for the
runtime `JSON.parse` (`none` = the parse threw).  A present-but-empty
`TranscriptionData` value makes `td` falsy and takes the fallback branch,
exactly as `if (td)` does in JS. -/
def parseTranscriptionData (jsonParse : String → Option Json)
    (body : List (String × String)) : String :=
  let td := pick body ["TranscriptionData", "transcriptionData"]
  if td ≠ "" then
    match jsonParse td with
    | some obj => jsToStr (firstTruthy (jsonGet obj "transcript") (jsonGet obj "Transcript"))
    | none => ""
  else
    pick body ["TranscriptionText", "SpeechResult", "utterance", "transcript", "text"]

/-! ### `index.js`: dedup gate and finalize -/

/-- The `recentByCall` map: call identifier to last processed text and its
`Date.now()` timestamp. -/
abbrev DedupMap := List (String × String × Nat)

/-- The `recentByCall.get(callSid)` lookup. -/
def mapGet : DedupMap → String → Option (String × Nat)
  | [], _ => none
  | p :: ps, callSid => if p.1 = callSid then some p.2 else mapGet ps callSid

/-- The `recentByCall.set(callSid, { text, ts })` update: replace the entry
for `callSid`, or add one. -/
def mapSet (m : DedupMap) (callSid text : String) (ts : Nat) : DedupMap :=
  match m with
  | [] => [(callSid, text, ts)]
  | p :: ps =>
    if p.1 = callSid then (callSid, text, ts) :: ps
    else p :: mapSet ps callSid text ts

/-- Embedding of `shouldProcess` (lines 256–262 of `index.js`): suppress
when a previous entry for the call has the identical text and is younger
than 5000 ms, updating the stored entry only on the processing path. -/
def shouldProcess (m : DedupMap) (callSid text : String) (now : Nat) :
    Bool × DedupMap :=
  match mapGet m callSid with
  | some prev =>
    if prev.1 == text && decide (now - prev.2 < 5000) then (false, m)
    else (true, mapSet m callSid text now)
  | none => (true, mapSet m callSid text now)

/-- The process-wide mutable state shared by the webhook handlers. -/
structure AgentState where
  greeted : List String
  recentByCall : DedupMap
deriving DecidableEq

/-- State transition of `finalizeUtterance` (lines 264–312 of `index.js`).
`downstreamOk` is the outcome of the awaited chat/TTS/save/redirect steps;
a thrown error there is caught by the webhook handler after the dedup map
was already updated, so the resulting state does not depend on it.  The
returned flag records whether the downstream pipeline was invoked. -/
def finalizeUtterance (st : AgentState) (callSid text : String) (now : Nat)
    (downstreamOk : Bool) : AgentState × Bool :=
  if jsTrim text = "" then (st, false)
  else
    let r := shouldProcess st.recentByCall callSid text now
    if !r.1 then (AgentState.mk st.greeted r.2, false)
    else
      let _ := downstreamOk
      (AgentState.mk st.greeted r.2, true)

/-! ### `index.js`: `/audio/:file` byte-range branch -/

/-- Result of the GET branch of the `/audio/:file` handler for an existing
file: a full 200 body, a 206 partial body with its `Content-Range` data, or
a 416 not-satisfiable response carrying `Content-Range: bytes */total`. -/
inductive RangeRes where
  | whole (body : List Nat) : RangeRes
  | part (a b total : Nat) (body : List Nat) : RangeRes
  | notSat (total : Nat) : RangeRes
deriving DecidableEq

/-- Numeric value of a non-empty all-digit character list (`parseInt`). -/
def digitsVal (cs : List Char) : Nat :=
  cs.foldl (fun acc c => acc * 10 + (c.toNat - 48)) 0

/-- Test that every character of the list is a decimal digit. -/
def allDigits (cs : List Char) : Bool :=
  cs.all (fun c => '0' ≤ c && c ≤ '9')

/-- The regular expression `^bytes=(\d*)-(\d*)$` applied to the `Range`
header: `some (g1, g2)` gives the two digit groups (`none` inside a group =
the group matched the empty string). -/
def parseRange (r : String) : Option (Option Nat × Option Nat) :=
  let cs := r.data
  if isPre "bytes=".data cs then
    let rest := cs.drop 6
    let g1 := rest.takeWhile (fun c => c ≠ '-')
    let g2 := (rest.dropWhile (fun c => c ≠ '-')).drop 1
    if rest.any (fun c => c = '-') && allDigits g1 && allDigits g2 then
      some (if g1.isEmpty then none else some (digitsVal g1),
            if g2.isEmpty then none else some (digitsVal g2))
    else none
  else none

/-- The GET branch of the `/audio/:file` handler (lines 90–110 of
`index.js`) for an existing file with contents `content`: an unparseable or
absent `Range` header streams the whole file; otherwise `start` defaults to
0 and `end` to `total - 1`, a range with `start > end` or `end ≥ total`
yields 416, and a valid range streams bytes `start..end` inclusive. -/
def serveRange (content : List Nat) (rangeHeader : Option String) : RangeRes :=
  let total := content.length
  match rangeHeader with
  | none => .whole content
  | some r =>
    match parseRange r with
    | none => .whole content
    | some g =>
      let a := g.1.getD 0
      let b := g.2.getD (total - 1)
      if a > b || b ≥ total then .notSat total
      else .part a b total ((content.drop a).take (b - a + 1))

/-! ### Helper lemmas -/

/-- Setting an entry makes it the one returned by a subsequent lookup. -/
theorem mapGet_mapSet_self (m : DedupMap) (c t : String) (ts : Nat) :
    mapGet (mapSet m c t ts) c = some (t, ts) := by
  induction m with
  | nil => simp [mapGet, mapSet]
  | cons p ps ih =>
    by_cases h : p.1 = c
    · simp [mapSet, h, mapGet]
    · simp [mapSet, h, mapGet, ih]

/-- The greeting block interpolated on the first call-start is never the
empty string: it is a `<Play>` or a `<Say>` element. -/
theorem greetingMarkup_ne_empty (g : Option String) (fb : String) :
    greetingMarkup g fb ≠ "" := by
  cases g with
  | some url =>
    intro h
    have h2 := congrArg String.length h
    simp [greetingMarkup, String.length_append] at h2
    exact absurd h2.1.1 (by decide)
  | none =>
    intro h
    have h2 := congrArg String.length h
    simp [greetingMarkup, String.length_append] at h2
    exact absurd h2.1.1 (by decide)

/-- A voice-webhook sequence whose events all carry the empty call
identifier leaves the greeted set unchanged and greets nobody. -/
theorem runVoiceSeq_empty_sids (evs : List (String × Option String × String))
    (greeted : List String) (hevs : ∀ e ∈ evs, e.1 = "") :
    runVoiceSeq greeted evs = (greeted, evs.map (fun _ => "")) := by
  induction evs generalizing greeted with
  | nil => simp [runVoiceSeq]
  | cons e evs ih =>
    have h1 : e.1 = "" := hevs e (List.mem_cons_self e evs)
    obtain ⟨sid, g, fb⟩ := e
    simp only at h1
    subst h1
    simp only [runVoiceSeq, handleVoice, List.map_cons]
    have hrest := ih greeted (fun e he => hevs e (List.mem_cons_of_mem _ he))
    simp [hrest]

/-- The dedup gate suppresses exactly when the stored entry for the call
has the identical text and age strictly below 5000 ms. -/
theorem shouldProcess_false_iff (m : DedupMap) (c t : String) (now : Nat) :
    (shouldProcess m c t now).1 = false ↔
      ∃ ts, mapGet m c = some (t, ts) ∧ now - ts < 5000 := by
  unfold shouldProcess
  cases hg : mapGet m c with
  | none => simp
  | some prev =>
    obtain ⟨pt, ts⟩ := prev
    by_cases he : pt = t
    · subst he
      by_cases hlt : now - ts < 5000
      · simp [hlt]
      · simp [hlt]
    · simp [he, beq_eq_false_iff_ne.mpr he]

/-- A suppressed duplicate leaves the dedup map untouched. -/
theorem shouldProcess_false_state (m : DedupMap) (c t : String) (now : Nat)
    (h : (shouldProcess m c t now).1 = false) :
    (shouldProcess m c t now).2 = m := by
  unfold shouldProcess at h ⊢
  cases hg : mapGet m c with
  | none => simp [hg] at h
  | some prev =>
    simp only [hg] at h ⊢
    by_cases hc : (prev.1 == t && decide (now - prev.2 < 5000)) = true
    · simp [hc]
    · simp [hc] at h

/-- An admitted text overwrites the stored entry with `(text, now)`. -/
theorem shouldProcess_true_state (m : DedupMap) (c t : String) (now : Nat)
    (h : (shouldProcess m c t now).1 = true) :
    (shouldProcess m c t now).2 = mapSet m c t now := by
  unfold shouldProcess at h ⊢
  cases hg : mapGet m c with
  | none => simp
  | some prev =>
    simp only [hg] at h ⊢
    by_cases hc : (prev.1 == t && decide (now - prev.2 < 5000)) = true
    · simp [hc] at h
    · simp [hc]

/-- With a stored identical entry younger than the window, the gate
suppresses and returns the map unchanged. -/
theorem shouldProcess_suppress (m : DedupMap) (c t : String) (ts now : Nat)
    (hg : mapGet m c = some (t, ts)) (hlt : now - ts < 5000) :
    shouldProcess m c t now = (false, m) := by
  unfold shouldProcess
  simp [hg, hlt]

/-- With no stored entry for the call, the gate admits and stores. -/
theorem shouldProcess_fresh (m : DedupMap) (c t : String) (now : Nat)
    (hg : mapGet m c = none) :
    shouldProcess m c t now = (true, mapSet m c t now) := by
  unfold shouldProcess
  simp [hg]

/-- With a stored identical entry at least 5000 ms old, the gate admits
again and refreshes the entry. -/
theorem shouldProcess_expired (m : DedupMap) (c t : String) (ts now : Nat)
    (hg : mapGet m c = some (t, ts)) (hge : ¬ now - ts < 5000) :
    shouldProcess m c t now = (true, mapSet m c t now) := by
  unfold shouldProcess
  simp [hg, hge]

/-! ### Claim theorems -/

/-- C1: for every non-empty call identifier, the greeted state goes from
absent to present exactly once.  The first call-start event (identifier not
yet in the greeted set) inserts the identifier and the response carries a
non-empty greeting block (the `<Play>`/`<Say>` markup); every call-start
event for an identifier already in the greeted set leaves the set unchanged
and carries an empty greeting block.  (An empty identifier is the absence
of a call identifier; claim C9 covers that case.) -/
theorem claim_C1_greeted_once (greeted : List String) (callSid : String)
    (g : Option String) (fb : String) (h : callSid ≠ "") :
    (greeted.contains callSid = false →
      (handleVoice greeted callSid g fb).1 = callSid :: greeted ∧
      ((handleVoice greeted callSid g fb).1.contains callSid = true) ∧
      (handleVoice greeted callSid g fb).2 = greetingMarkup g fb ∧
      (handleVoice greeted callSid g fb).2 ≠ "") ∧
    (greeted.contains callSid = true →
      (handleVoice greeted callSid g fb).1 = greeted ∧
      (handleVoice greeted callSid g fb).2 = "") := by
  have hcs : (callSid == "") = false := beq_eq_false_iff_ne.mpr h
  constructor
  · intro habs
    have habs2 : callSid ∉ greeted := by simpa using habs
    simp [handleVoice, hcs, habs2, greetingMarkup_ne_empty]
  · intro hpres
    have hpres2 : callSid ∈ greeted := by simpa using hpres
    simp [handleVoice, hcs, hpres2]

/-- Witness for C1 at a concrete input. -/
theorem claim_C1_greeted_once_witness :
    ((handleVoice [] "CA1" (some "https://h/audio/greeting.wav") "Hello").1 = ["CA1"] ∧
      (handleVoice [] "CA1" (some "https://h/audio/greeting.wav") "Hello").2 ≠ "") ∧
    ((handleVoice ["CA1"] "CA1" (some "https://h/audio/greeting.wav") "Hello").1 = ["CA1"] ∧
      (handleVoice ["CA1"] "CA1" (some "https://h/audio/greeting.wav") "Hello").2 = "") := by
  refine ⟨?_, ?_⟩
  · have h := (claim_C1_greeted_once [] "CA1" (some "https://h/audio/greeting.wav") "Hello"
      (by decide)).1 (by decide)
    exact ⟨h.1, h.2.2.2⟩
  · exact (claim_C1_greeted_once ["CA1"] "CA1" (some "https://h/audio/greeting.wav") "Hello"
      (by decide)).2 (by decide)

/-- C9: a call-start event with an empty call identifier (the extraction
result when the payload carries no `CallSid`/`callSid` field) never inserts
anything into the greeted set and its response has no greeting block, for
every sequence of such events; a response with a non-empty greeting block
can only come from an event with a non-empty call identifier. -/
theorem claim_C9_empty_sid (greeted : List String) (g : Option String) (fb : String)
    (evs : List (String × Option String × String)) (hevs : ∀ e ∈ evs, e.1 = "") :
    handleVoice greeted "" g fb = (greeted, "") ∧
    runVoiceSeq greeted evs = (greeted, evs.map (fun _ => "")) ∧
    (∀ sid go fbt, (handleVoice greeted sid go fbt).2 ≠ "" → sid ≠ "") ∧
    (∀ body, getField body "CallSid" = none → getField body "callSid" = none →
      getCallSid body = "") := by
  refine ⟨by simp [handleVoice], runVoiceSeq_empty_sids evs greeted hevs, ?_, ?_⟩
  · intro sid go fbt hne
    intro hsid
    subst hsid
    simp [handleVoice] at hne
  · intro body h1 h2
    simp [getCallSid, jsOr, h1, h2, truthy]

/-- C2: the dedup gate returns false iff a prior entry for the call has
identical text and age strictly below 5000 ms; it updates the stored entry
only when it returns true (a suppressed duplicate does not refresh the
timestamp); consequently an identical final transcript delivered twice
within 5000 ms yields exactly one downstream finalize invocation, and a
third identical delivery at least 5000 ms after the stored entry yields a
second invocation. -/
theorem claim_C2_dedup_gate :
    (∀ (m : DedupMap) (c t : String) (now : Nat),
      ((shouldProcess m c t now).1 = false ↔
        ∃ ts, mapGet m c = some (t, ts) ∧ now - ts < 5000)) ∧
    (∀ (m : DedupMap) (c t : String) (now : Nat),
      (shouldProcess m c t now).1 = false → (shouldProcess m c t now).2 = m) ∧
    (∀ (m : DedupMap) (c t : String) (now : Nat),
      (shouldProcess m c t now).1 = true →
        mapGet (shouldProcess m c t now).2 c = some (t, now)) ∧
    (∀ (gr : List String) (m : DedupMap) (c t : String) (t0 t1 t2 : Nat)
      (b0 b1 b2 : Bool),
      mapGet m c = none → t1 - t0 < 5000 → ¬ t2 - t0 < 5000 → jsTrim t ≠ "" →
      (finalizeUtterance (AgentState.mk gr m) c t t0 b0).2 = true ∧
      (finalizeUtterance
        (finalizeUtterance (AgentState.mk gr m) c t t0 b0).1 c t t1 b1).2 = false ∧
      (finalizeUtterance
        (finalizeUtterance
          (finalizeUtterance (AgentState.mk gr m) c t t0 b0).1 c t t1 b1).1
        c t t2 b2).2 = true) := by
  refine ⟨shouldProcess_false_iff, shouldProcess_false_state, ?_, ?_⟩
  · intro m c t now h
    rw [shouldProcess_true_state m c t now h]
    exact mapGet_mapSet_self m c t now
  · intro gr m c t t0 t1 t2 b0 b1 b2 h0 h1 h2 ht
    have hs0 : shouldProcess m c t t0 = (true, mapSet m c t t0) :=
      shouldProcess_fresh m c t t0 h0
    have hf0 : finalizeUtterance (AgentState.mk gr m) c t t0 b0 =
        (AgentState.mk gr (mapSet m c t t0), true) := by
      simp [finalizeUtterance, ht, hs0]
    have hs1 : shouldProcess (mapSet m c t t0) c t t1 = (false, mapSet m c t t0) :=
      shouldProcess_suppress (mapSet m c t t0) c t t0 t1 (mapGet_mapSet_self m c t t0) h1
    have hf1 : finalizeUtterance (AgentState.mk gr (mapSet m c t t0)) c t t1 b1 =
        (AgentState.mk gr (mapSet m c t t0), false) := by
      simp [finalizeUtterance, ht, hs1]
    have hs2 : shouldProcess (mapSet m c t t0) c t t2 =
        (true, mapSet (mapSet m c t t0) c t t2) :=
      shouldProcess_expired (mapSet m c t t0) c t t0 t2 (mapGet_mapSet_self m c t t0) h2
    have hf2 : finalizeUtterance (AgentState.mk gr (mapSet m c t t0)) c t t2 b2 =
        (AgentState.mk gr (mapSet (mapSet m c t t0) c t t2), true) := by
      simp [finalizeUtterance, ht, hs2]
    rw [hf0]
    simp only [hf1]
    simp [hf2]

/-- Witness for C2 at concrete inputs: a fresh "hello" at t=0 is processed,
its duplicate at t=1000 is suppressed, and a third delivery at t=6000 is
processed again. -/
theorem claim_C2_dedup_gate_witness :
    (finalizeUtterance (AgentState.mk [] []) "CA1" "hello" 0 true).2 = true ∧
    (finalizeUtterance
      (finalizeUtterance (AgentState.mk [] []) "CA1" "hello" 0 true).1
      "CA1" "hello" 1000 true).2 = false ∧
    (finalizeUtterance
      (finalizeUtterance
        (finalizeUtterance (AgentState.mk [] []) "CA1" "hello" 0 true).1
        "CA1" "hello" 1000 true).1
      "CA1" "hello" 6000 true).2 = true :=
  claim_C2_dedup_gate.2.2.2 [] [] "CA1" "hello" 0 1000 6000 true true true
    (by decide) (by decide) (by decide) (by decide)

/-- C10: once the dedup gate has admitted a (callId, text) pair inside
`finalizeUtterance`, the stored entry and the returned state do not depend
on whether the downstream chat/synthesis/persist/redirect work succeeds:
the admission is not rolled back, the greeted set is untouched, and an
identical redelivery less than 5000 ms after the admission is suppressed
and triggers no second downstream invocation. -/
theorem claim_C10_failure_keeps_dedup (gr : List String) (m : DedupMap)
    (c t : String) (now : Nat) (b : Bool)
    (hadm : (shouldProcess m c t now).1 = true) (ht : jsTrim t ≠ "") :
    (finalizeUtterance (AgentState.mk gr m) c t now b).2 = true ∧
    (∀ b2, finalizeUtterance (AgentState.mk gr m) c t now b2 =
      finalizeUtterance (AgentState.mk gr m) c t now b) ∧
    (finalizeUtterance (AgentState.mk gr m) c t now b).1.greeted = gr ∧
    mapGet (finalizeUtterance (AgentState.mk gr m) c t now b).1.recentByCall c =
      some (t, now) ∧
    (∀ now2 b2, now2 - now < 5000 →
      finalizeUtterance (finalizeUtterance (AgentState.mk gr m) c t now b).1
        c t now2 b2 =
      ((finalizeUtterance (AgentState.mk gr m) c t now b).1, false)) := by
  have hset := shouldProcess_true_state m c t now hadm
  have hf : finalizeUtterance (AgentState.mk gr m) c t now b =
      (AgentState.mk gr (mapSet m c t now), true) := by
    simp [finalizeUtterance, ht, hadm, hset]
  refine ⟨by simp [hf], ?_, by simp [hf], ?_, ?_⟩
  · intro b2
    have hf2 : finalizeUtterance (AgentState.mk gr m) c t now b2 =
        (AgentState.mk gr (mapSet m c t now), true) := by
      simp [finalizeUtterance, ht, hadm, hset]
    rw [hf, hf2]
  · rw [hf]
    exact mapGet_mapSet_self m c t now
  · intro now2 b2 hlt
    rw [hf]
    have hs : shouldProcess (mapSet m c t now) c t now2 = (false, mapSet m c t now) :=
      shouldProcess_suppress (mapSet m c t now) c t now now2
        (mapGet_mapSet_self m c t now) hlt
    simp [finalizeUtterance, ht, hs]

/-- Witness for C10 at a concrete input: admission of "hello" at t=0 with
a failing downstream, then a redelivery at t=100. -/
theorem claim_C10_failure_keeps_dedup_witness :
    (finalizeUtterance (AgentState.mk ["CA1"] []) "CA1" "hello" 0 false).2 = true ∧
    (finalizeUtterance (AgentState.mk ["CA1"] []) "CA1" "hello" 0 false).1.greeted =
      ["CA1"] ∧
    mapGet (finalizeUtterance
      (AgentState.mk ["CA1"] []) "CA1" "hello" 0 false).1.recentByCall "CA1" =
      some ("hello", 0) ∧
    finalizeUtterance
      (finalizeUtterance (AgentState.mk ["CA1"] []) "CA1" "hello" 0 false).1
      "CA1" "hello" 100 true =
    ((finalizeUtterance (AgentState.mk ["CA1"] []) "CA1" "hello" 0 false).1, false) := by
  have h := claim_C10_failure_keeps_dedup ["CA1"] [] "CA1" "hello" 0 false
    (by decide) (by decide)
  exact ⟨h.1, h.2.2.1, h.2.2.2.1, h.2.2.2.2 100 true (by decide)⟩

/-- Witness for C9 at a concrete input. -/
theorem claim_C9_empty_sid_witness :
    handleVoice ["CA1"] "" (some "u") "Hello" = (["CA1"], "") ∧
    runVoiceSeq ["CA1"] [("", some "u", "Hello"), ("", none, "Hi")] =
      (["CA1"], ["", ""]) := by
  have h := claim_C9_empty_sid ["CA1"] (some "u") "Hello"
    [("", some "u", "Hello"), ("", none, "Hi")] (by decide)
  exact ⟨h.1, h.2.1⟩

/-- C3: finality classification follows the priority order of
`isFinalEvent` and defaults to not-final: a lowercased final flag equal to
"true" is final regardless of the other fields; otherwise an event type
containing "stopped" (case-insensitively) is final; otherwise a status
equal to "completed" or "final" (case-insensitively) is final; and when
none of the three signals matches the event is not final. -/
theorem claim_C3_finality_priority (body : List (String × String)) :
    (strLower (pick body ["Final", "final"]) = "true" → isFinalEvent body = true) ∧
    (strLower (pick body ["Final", "final"]) ≠ "true" →
      (hasSub "stopped"
          (strLower (pick body ["TranscriptionEvent", "event", "EventType"])) = true →
        isFinalEvent body = true) ∧
      (hasSub "stopped"
          (strLower (pick body ["TranscriptionEvent", "event", "EventType"])) = false →
        ((strLower (pick body ["TranscriptionStatus", "Status"]) = "completed" ∨
          strLower (pick body ["TranscriptionStatus", "Status"]) = "final") →
          isFinalEvent body = true) ∧
        (strLower (pick body ["TranscriptionStatus", "Status"]) ≠ "completed" →
          strLower (pick body ["TranscriptionStatus", "Status"]) ≠ "final" →
          isFinalEvent body = false))) := by
  refine ⟨?_, ?_⟩
  · intro h
    simp [isFinalEvent, h]
  · intro h
    have hb : (strLower (pick body ["Final", "final"]) == "true") = false :=
      beq_eq_false_iff_ne.mpr h
    refine ⟨?_, ?_⟩
    · intro hs
      simp [isFinalEvent, hb, hs]
    · intro hs
      refine ⟨?_, ?_⟩
      · intro hst
        cases hst with
        | inl h1 => simp [isFinalEvent, hb, hs, h1]
        | inr h1 => simp [isFinalEvent, hb, hs, h1]
      · intro h1 h2
        simp [isFinalEvent, hb, hs, beq_eq_false_iff_ne.mpr h1,
          beq_eq_false_iff_ne.mpr h2]

/-- Witness for C3 at concrete payloads: an uppercase final flag, a
stop event without a flag, a capitalised completed status, and a
content event with a false flag and no other signal. -/
theorem claim_C3_finality_priority_witness :
    isFinalEvent [("Final", "TRUE"), ("TranscriptionStatus", "in-progress")] = true ∧
    isFinalEvent [("TranscriptionEvent", "transcription-stopped")] = true ∧
    isFinalEvent [("TranscriptionStatus", "Completed")] = true ∧
    isFinalEvent [("TranscriptionEvent", "transcription-content"),
      ("Final", "false")] = false := by
  refine ⟨?_, ?_, ?_, ?_⟩
  · exact (claim_C3_finality_priority
      [("Final", "TRUE"), ("TranscriptionStatus", "in-progress")]).1 (by decide)
  · exact ((claim_C3_finality_priority
      [("TranscriptionEvent", "transcription-stopped")]).2 (by decide)).1 (by decide)
  · exact (((claim_C3_finality_priority
      [("TranscriptionStatus", "Completed")]).2 (by decide)).2 (by decide)).1
      (Or.inl (by decide))
  · exact (((claim_C3_finality_priority
      [("TranscriptionEvent", "transcription-content"), ("Final", "false")]).2
      (by decide)).2 (by decide)).2 (by decide) (by decide)

/-- C5: signature verification returns true whenever disabled; when enabled
it returns false if the signature header, the token, or the URL is absent
(JS-falsy); otherwise it returns true exactly when the keyed digest of the
URL concatenated with the sorted form-body key/value pairs equals the
signature header (the byte-length-and-content compare of two UTF-8 strings
is string equality). -/
theorem claim_C5_signature (hmac : String → String → String)
    (authToken url : Option String) (headers body : List (String × String)) :
    validateTwilioSignature hmac false authToken url headers body = true ∧
    ((truthy (jsOr (getField headers "x-twilio-signature")
        (getField headers "X-Twilio-Signature")) = false ∨
      truthy authToken = false ∨ truthy url = false) →
      validateTwilioSignature hmac true authToken url headers body = false) ∧
    (∀ sig tok u,
      jsOr (getField headers "x-twilio-signature")
        (getField headers "X-Twilio-Signature") = some sig → sig ≠ "" →
      authToken = some tok → tok ≠ "" → url = some u → u ≠ "" →
      (validateTwilioSignature hmac true authToken url headers body = true ↔
        hmac tok (canonicalString u body) = sig)) := by
  refine ⟨by simp [validateTwilioSignature], ?_, ?_⟩
  · intro h
    rcases h with h | h | h <;> simp [validateTwilioSignature, h]
  · intro sig tok u hsig hsne htok htne hu hune
    subst htok
    subst hu
    simp [validateTwilioSignature, hsig, truthy, hsne, htne, hune]

/-- Witness for C5 at concrete inputs, with concatenation standing in for
the keyed digest: verification disabled passes, and enabled verification
accepts exactly the digest of `"URL" ++ "A1" ++ "B2"` under key `"K"`. -/
theorem claim_C5_signature_witness :
    validateTwilioSignature (fun k m => k ++ m) false (some "K") (some "URL")
      [("x-twilio-signature", "KURLA1B2")] [("B", "2"), ("A", "1")] = true ∧
    validateTwilioSignature (fun k m => k ++ m) true (some "K") (some "URL")
      [("x-twilio-signature", "KURLA1B2")] [("B", "2"), ("A", "1")] = true := by
  refine ⟨(claim_C5_signature (fun k m => k ++ m) (some "K") (some "URL")
    [("x-twilio-signature", "KURLA1B2")] [("B", "2"), ("A", "1")]).1, ?_⟩
  exact ((claim_C5_signature (fun k m => k ++ m) (some "K") (some "URL")
    [("x-twilio-signature", "KURLA1B2")] [("B", "2"), ("A", "1")]).2.2
    "KURLA1B2" "K" "URL" (by decide) (by decide) rfl (by decide) rfl
    (by decide)).mpr (by decide)

/-- Counterexample to C4: the markup document built by
`redirectCallToPlay` for a concrete host and reply-artifact URL redirects
the call back to `/twilio/voice`, and the resume path `/twilio/resume`
appears nowhere in it — the claim's "return the call to the resume path
(the endpoint that never replays the greeting)" is false of the code. -/
theorem claim_C4_counterexample :
    hasSub "/twilio/resume"
      (redirectTwiml "example.com" "https://example.com/audio/abc.wav") = false ∧
    hasSub "/twilio/voice</Redirect>"
      (redirectTwiml "example.com" "https://example.com/audio/abc.wav") = true := by
  decide

/-- C4 as amended: after a successful finalize the markup document plays
the freshly created reply artifact's URL and then redirects the call back
to the voice webhook `/twilio/voice` (the `resumeUrl` passed by the caller
is ignored by the helper); replaying the greeting is nevertheless
prevented, because the call identifier is already in the greeted set and
the voice webhook then responds with no greeting block. -/
theorem claim_C4_amended (host audioUrl : String) (greeted : List String)
    (callSid : String) (g : Option String) (fb : String)
    (hmem : greeted.contains callSid = true) :
    redirectTwiml host audioUrl =
      "<Response>\n      <Play>" ++ audioUrl ++
      "</Play>\n      <Redirect method=\"POST\">https://" ++ host ++
      "/twilio/voice</Redirect>\n    </Response>" ∧
    handleVoice greeted callSid g fb = (greeted, "") := by
  refine ⟨rfl, ?_⟩
  have hpres : callSid ∈ greeted := by simpa using hmem
  simp [handleVoice, hpres]

/-- Witness for the amended C4 at a concrete input. -/
theorem claim_C4_amended_witness :
    redirectTwiml "example.com" "https://example.com/audio/abc.wav" =
      "<Response>\n      <Play>" ++ "https://example.com/audio/abc.wav" ++
      "</Play>\n      <Redirect method=\"POST\">https://" ++ "example.com" ++
      "/twilio/voice</Redirect>\n    </Response>" ∧
    handleVoice ["CA1"] "CA1" (some "u") "Hello" = (["CA1"], "") :=
  claim_C4_amended "example.com" "https://example.com/audio/abc.wav"
    ["CA1"] "CA1" (some "u") "Hello" (by decide)

/-- Counterexample to C6: a response buffer whose first byte is 0xD2 (so
its first 4 bytes are not the ASCII tag "RIFF") is accepted by
`synthesizeWavStrict`, because Node's `'ascii'` decoding unsets the high
bit (0xD2 → 0x52 = 'R'); the accepted bytes fail the spec's byte-for-byte
tag check. -/
theorem claim_C6_counterexample :
    exceptOk (synthesizeWavStrict (TtsResponse.mk true "audio/wav"
      [210, 73, 70, 70, 0, 0, 0, 0, 87, 65, 86, 69])) =
      some [210, 73, 70, 70, 0, 0, 0, 0, 87, 65, 86, 69] ∧
    specWavTag [210, 73, 70, 70, 0, 0, 0, 0, 87, 65, 86, 69] = false := by
  decide

/-- C6 as amended: synthesis fails iff the response has a non-ok status, or
a lowercased content type not containing "audio", or a buffer failing the
container check of the code — shorter than 12 bytes, or whose first 4 bytes
do not decode to "RIFF", or whose bytes 8–12 do not decode to "WAVE",
under Node's `'ascii'` decoding that unsets the high bit of each byte; a
buffer failing that check is rejected even when the content type claims
audio, and on success the returned bytes are the response bytes and
satisfy the check. -/
theorem claim_C6_amended (r : TtsResponse) :
    (exceptOk (synthesizeWavStrict r) = none ↔
      (r.ok = false ∨ hasSub "audio" (strLower r.contentType) = false ∨
        looksLikeWav r.bytes = false)) ∧
    (r.ok = true → hasSub "audio" (strLower r.contentType) = true →
      looksLikeWav r.bytes = false → exceptOk (synthesizeWavStrict r) = none) ∧
    (∀ bs, exceptOk (synthesizeWavStrict r) = some bs →
      bs = r.bytes ∧ looksLikeWav bs = true) := by
  obtain ⟨ok, ct, bytes⟩ := r
  refine ⟨?_, ?_, ?_⟩
  · cases ok <;> by_cases ha : hasSub "audio" (strLower ct) = true <;>
      by_cases hw : looksLikeWav bytes = true <;>
      simp_all [synthesizeWavStrict, exceptOk]
  · intro hok ha hw
    dsimp only at hok ha hw
    simp [synthesizeWavStrict, exceptOk, hok, ha, hw]
  · intro bs hbs
    cases ok <;> by_cases ha : hasSub "audio" (strLower ct) = true <;>
      by_cases hw : looksLikeWav bytes = true <;>
      simp_all [synthesizeWavStrict, exceptOk]

/-- Witness for the amended C6: a 3-byte non-container buffer with an audio
content type is rejected, and a well-formed RIFF/WAVE buffer is returned
and passes the container check. -/
theorem claim_C6_amended_witness :
    exceptOk (synthesizeWavStrict (TtsResponse.mk true "audio/wav" [1, 2, 3])) =
      none ∧
    ([82, 73, 70, 70, 0, 0, 0, 0, 87, 65, 86, 69] =
        (TtsResponse.mk true "audio/wav"
          [82, 73, 70, 70, 0, 0, 0, 0, 87, 65, 86, 69]).bytes ∧
      looksLikeWav [82, 73, 70, 70, 0, 0, 0, 0, 87, 65, 86, 69] = true) := by
  refine ⟨?_, ?_⟩
  · exact (claim_C6_amended (TtsResponse.mk true "audio/wav" [1, 2, 3])).2.1
      (by decide) (by decide) (by decide)
  · exact (claim_C6_amended (TtsResponse.mk true "audio/wav"
      [82, 73, 70, 70, 0, 0, 0, 0, 87, 65, 86, 69])).2.2
      [82, 73, 70, 70, 0, 0, 0, 0, 87, 65, 86, 69] (by decide)

/-- Counterexample to C7: a range `bytes=0-150` on a 100-byte file is not
clamped to the file size and served — the handler answers 416
not-satisfiable instead of a 206 of bytes 0–99. -/
theorem claim_C7_counterexample :
    serveRange (List.range 100) (some "bytes=0-150") = RangeRes.notSat 100 ∧
    serveRange (List.range 100) (some "bytes=0-150") ≠
      RangeRes.part 0 99 100 (List.range 100) := by
  decide

/-- C7 as amended: on a parseable single-range header, an omitted start
defaults to 0 and an omitted end to the last byte of the file (the only
clamping to the file size); a range with start above end, or with an end at
or beyond the file size, yields 416 not-satisfiable; a valid range is
served inclusively as a 206 whose body has exactly end−start+1 bytes; in
particular `bytes=0-9` on a 100-byte file yields 206 with
`Content-Range: bytes 0-9/100` and a 10-byte body. -/
theorem claim_C7_amended (content : List Nat) (r : String) (g1 g2 : Option Nat)
    (hp : parseRange r = some (g1, g2)) :
    (g1.getD 0 > g2.getD (content.length - 1) ∨
      g2.getD (content.length - 1) ≥ content.length →
      serveRange content (some r) = RangeRes.notSat content.length) ∧
    (g1.getD 0 ≤ g2.getD (content.length - 1) →
      g2.getD (content.length - 1) < content.length →
      serveRange content (some r) =
        RangeRes.part (g1.getD 0) (g2.getD (content.length - 1)) content.length
          ((content.drop (g1.getD 0)).take
            (g2.getD (content.length - 1) - g1.getD 0 + 1)) ∧
      ((content.drop (g1.getD 0)).take
        (g2.getD (content.length - 1) - g1.getD 0 + 1)).length =
        g2.getD (content.length - 1) - g1.getD 0 + 1) ∧
    serveRange (List.range 100) (some "bytes=0-9") =
      RangeRes.part 0 9 100 (List.range 10) := by
  refine ⟨?_, ?_, by decide⟩
  · intro h
    rcases h with h | h
    · simp [serveRange, hp, h]
    · simp [serveRange, hp, h]
  · intro h1 h2
    have hng : ¬ g2.getD (content.length - 1) < g1.getD 0 := Nat.not_lt.mpr h1
    have hne : ¬ g2.getD (content.length - 1) ≥ content.length := Nat.not_le.mpr h2
    constructor
    · simp [serveRange, hp, hng, hne]
    · simp only [List.length_take, List.length_drop]
      omega

/-- Witness for the amended C7 at the concrete scenario input. -/
theorem claim_C7_amended_witness :
    serveRange (List.range 100) (some "bytes=0-9") =
      RangeRes.part 0 9 100 (List.range 10) :=
  (claim_C7_amended (List.range 100) "bytes=0-9" (some 0) (some 9)
    (by decide)).2.2

/-- Counterexample to C8: a present `TranscriptionData` field whose value
is the empty string is not parsed as JSON (the claim would give empty text
with no fallback); the code falls through to the `SpeechResult` alias and
returns "hi".  Moreover the nested lookup is not case-insensitive: a
parsed payload whose only key is `TRANSCRIPT` yields the empty string,
where a case-insensitive lookup would yield "hi". -/
theorem claim_C8_counterexample :
    parseTranscriptionData (fun _ => none)
      [("TranscriptionData", ""), ("SpeechResult", "hi")] = "hi" ∧
    parseTranscriptionData
      (fun s => if s = "\x7b\"TRANSCRIPT\":\"hi\"\x7d" then
        some (Json.obj [("TRANSCRIPT", Json.str "hi")]) else none)
      [("TranscriptionData", "\x7b\"TRANSCRIPT\":\"hi\"\x7d")] = "" := by
  constructor
  · decide
  · simp [parseTranscriptionData, pick, getField, jsonGet, firstTruthy, jsToStr]

/-- C8 as amended: when the transcription-data field is present with a
non-empty value it is parsed as nested JSON and the text is the first
truthy of its `transcript` then `Transcript` fields (exactly these two
casings), stringified; on parse failure the text is empty with no
fallback; the prioritized plain-text aliases are consulted only when the
transcription-data field is absent or its value is empty. -/
theorem claim_C8_amended (jsonParse : String → Option Json)
    (body : List (String × String)) :
    (pick body ["TranscriptionData", "transcriptionData"] ≠ "" →
      (jsonParse (pick body ["TranscriptionData", "transcriptionData"]) = none →
        parseTranscriptionData jsonParse body = "") ∧
      (∀ j, jsonParse (pick body ["TranscriptionData", "transcriptionData"]) = some j →
        parseTranscriptionData jsonParse body =
          jsToStr (firstTruthy (jsonGet j "transcript") (jsonGet j "Transcript")))) ∧
    (pick body ["TranscriptionData", "transcriptionData"] = "" →
      parseTranscriptionData jsonParse body =
        pick body ["TranscriptionText", "SpeechResult", "utterance",
          "transcript", "text"]) := by
  refine ⟨?_, ?_⟩
  · intro htd
    refine ⟨?_, ?_⟩
    · intro hp
      simp [parseTranscriptionData, htd, hp]
    · intro j hp
      simp [parseTranscriptionData, htd, hp]
  · intro htd
    simp [parseTranscriptionData, htd]

/-- Witness for the amended C8: a parse failure on a non-empty field gives
empty text, and an absent field falls back to `SpeechResult`. -/
theorem claim_C8_amended_witness :
    parseTranscriptionData (fun _ => none) [("TranscriptionData", "oops")] = "" ∧
    parseTranscriptionData (fun _ => none) [("SpeechResult", "hi")] = "hi" := by
  refine ⟨?_, ?_⟩
  · exact ((claim_C8_amended (fun _ => none) [("TranscriptionData", "oops")]).1
      (by decide)).1 rfl
  · exact (claim_C8_amended (fun _ => none) [("SpeechResult", "hi")]).2 (by decide)

end VoiceAgent
